import Mathlib

/-!
Verification of the realtime voice client (`openai_realtime/client.py`,
`openai_realtime/audio_utils.py`).

The embedding models the response-lifecycle state machine of
`RealtimeClient.on_message`, the barge-in path
(`send_response_cancel` / `stop_assistant_playback` /
`send_conversation_item_truncate`), the playback delivery loop
(`_play_received_audio`), and the `AudioPlayer` buffer/accounting
operations.  Python dict `response_states` becomes an association list;
lifecycle states are the literal strings the code stores
("active", "canceled", "completed", or the status carried by
`response.done`).  PCM chunks become `List Int` (the decoded int16
samples; the base64 codec is external and stateless).  The float
computation `int((total_samples_played / rate) * 1000)` is modelled
bit-exactly in IEEE binary64 arithmetic: values in the normal range are
a 53-bit mantissa times a power of two, division and multiplication
round to nearest, ties to even (see `float64AudioEndMs`).  Side effects
(outbound messages, player writes, buffer appends) are returned as an
explicit effect list so that delivery properties can be stated.
-/

namespace RealtimeSpec

/-- `AudioPlayer` state (`audio_utils.py`): pending int16 samples, the
rendered-sample counter, the `playback_finished` event, and whether the
output stream is currently open (channels is fixed to 1). -/
structure AudioPlayer where
  buffer : List Int
  total_samples_played : Nat
  playback_finished : Bool
  streamActive : Bool
  deriving Repr, DecidableEq

/-- Fresh player as built by `AudioPlayer.__init__` (which calls
`_create_stream`). -/
def AudioPlayer.init : AudioPlayer :=
  { buffer := [], total_samples_played := 0,
    playback_finished := false, streamActive := true }

/-- `AudioPlayer._callback(outdata, frames, ...)` with channels = 1:
drains up to `frames` samples from the front of the buffer, sets
`playback_finished` iff the buffer was already empty, and adds `frames`
(the frames the device emits, silence included) to the counter. -/
def AudioPlayer.callback (p : AudioPlayer) (frames : Nat) : AudioPlayer :=
  let samples_to_play := min p.buffer.length frames
  { buffer := p.buffer.drop samples_to_play,
    total_samples_played := p.total_samples_played + frames,
    playback_finished :=
      decide (p.buffer.drop samples_to_play = [] ∧ samples_to_play = 0),
    streamActive := p.streamActive }

/-- `AudioPlayer.stop`: closes the stream if active, clears the buffer,
sets `playback_finished`; the rendered-sample counter is untouched. -/
def AudioPlayer.stop (p : AudioPlayer) : AudioPlayer :=
  { buffer := [], total_samples_played := p.total_samples_played,
    playback_finished := true, streamActive := false }

/-- `AudioPlayer.reset`: closes and recreates the stream, clears the
buffer, zeroes the rendered-sample counter, clears `playback_finished`. -/
def AudioPlayer.reset (_p : AudioPlayer) : AudioPlayer :=
  { buffer := [], total_samples_played := 0,
    playback_finished := false, streamActive := true }

/-- `AudioPlayer.write(audio_bytes)`: appends the decoded samples and
clears `playback_finished`. -/
def AudioPlayer.write (p : AudioPlayer) (samples : List Int) : AudioPlayer :=
  { buffer := p.buffer ++ samples,
    total_samples_played := p.total_samples_played,
    playback_finished := false, streamActive := p.streamActive }

/-- `AudioPlayer.get_total_played_samples`. -/
def AudioPlayer.get_total_played_samples (p : AudioPlayer) : Nat :=
  p.total_samples_played

/-- `AudioPlayer.is_playing`. -/
def AudioPlayer.is_playing (p : AudioPlayer) : Bool :=
  !p.playback_finished

/-- `RealtimeClient.audio_sample_rate` (fixed 24000 Hz). -/
def audio_sample_rate : Nat := 24000

/-- Outbound control messages the client sends (`ws.send`). -/
inductive OutMsg where
  | sessionUpdate : OutMsg
  | responseCancel (rid : String) : OutMsg
  | itemTruncate (itemId : String) (audioEndMs : Nat) : OutMsg
  | responseCreate : OutMsg
  deriving Repr, DecidableEq

/-- Observable side effects of one handler / loop-iteration step. -/
inductive Effect where
  | sendMsg (m : OutMsg) : Effect
  | enqueueAudio (rid : String) (samples : List Int) : Effect
  | playerWrite (rid : String) (samples : List Int) : Effect
  | textAppend (rid : String) (delta : String) : Effect
  | transcriptAppend (rid : String) (delta : String) : Effect
  | flushText (text : String) : Effect
  deriving Repr, DecidableEq

/-- Inbound protocol events that `on_message` dispatches on.  Events
whose payload carries a `response_id` (or `response.id`) field hold it
as an `Option String`, `none` meaning the field is absent. -/
inductive Event where
  | speechStarted : Event
  | speechStopped : Event
  | itemCreated (role : String) (itemId : String) : Event
  | responseCreated (rid : String) : Event
  | audioTranscriptDelta (rid : Option String) (delta : String) : Event
  | audioDone (rid : Option String) : Event
  | textDelta (rid : Option String) (delta : String) : Event
  | textDone (rid : Option String) : Event
  | audioTranscriptDone (rid : Option String) : Event
  | audioDelta (rid : Option String) (samples : Option (List Int)) : Event
  | contentPartDone (rid : Option String) (partType : String) (text : String) : Event
  | outputItemDone (rid : Option String) : Event
  | responseDone (rid : Option String) (status : String) : Event
  | unrecognized (t : String) : Event
  deriving Repr, DecidableEq

/-- `self.response_states.get(rid)` on the association-list model of the
Python dict. -/
def lookupState : List (String × String) → String → Option String
  | [], _ => none
  | (k, v) :: rest, rid => if k = rid then some v else lookupState rest rid

/-- `self.response_states[rid] = st` (dict update-or-insert). -/
def setState : List (String × String) → String → String → List (String × String)
  | [], rid, st => [(rid, st)]
  | (k, v) :: rest, rid, st =>
      if k = rid then (rid, st) :: rest else (k, v) :: setState rest rid st

/-- Mutable `RealtimeClient` state relevant to the claims. -/
structure ClientState where
  text_buffer : String
  audio_transcript_buffer : String
  current_response_id : Option String
  current_item_id : Option String
  response_states : List (String × String)
  assistant_speaking : Bool
  assistant_audio_playing : Bool
  audio_queue : List (String × List Int)
  player : AudioPlayer
  unhandled_event_types : List String
  deriving Repr, DecidableEq

/-- `RealtimeClient.__init__` state. -/
def ClientState.init : ClientState :=
  { text_buffer := "", audio_transcript_buffer := "",
    current_response_id := none, current_item_id := none,
    response_states := [], assistant_speaking := false,
    assistant_audio_playing := false, audio_queue := [],
    player := AudioPlayer.init, unhandled_event_types := [] }

/-- `RealtimeClient.send_response_cancel`: if a current response id is
known, emit `response.cancel` for it and mark it canceled. -/
def sendResponseCancel (s : ClientState) : ClientState × List Effect :=
  match s.current_response_id with
  | some rid =>
      ({ s with response_states := setState s.response_states rid "canceled" },
        [Effect.sendMsg (OutMsg.responseCancel rid)])
  | none => (s, [])

/-- Fuel-driven floor-log2, by structural recursion on the fuel so that
it evaluates inside the kernel (`Nat.log2` itself is defined by
well-founded recursion and does not reduce there). -/
def log2Fuel : Nat → Nat → Nat
  | 0, _ => 0
  | fuel + 1, n => if 2 ≤ n then log2Fuel fuel (n / 2) + 1 else 0

/-- `⌊log2 n⌋` for `n ≥ 1` (and 0 at 0): `n` itself is ample fuel. -/
def natLog2 (n : Nat) : Nat := log2Fuel n n

/-- Does `a * 2 ^ s` (with a signed exponent `s`) reach `c`? -/
def scaledGE (a : Nat) (s : Int) (c : Nat) : Bool :=
  if 0 ≤ s then decide (c ≤ a * 2 ^ s.toNat) else decide (c * 2 ^ (-s).toNat ≤ a)

/-- One correction step towards the scale `s` with
`2^52 * b ≤ a * 2^s < 2^53 * b`. -/
def adjustScale (a b : Nat) (s : Int) : Int :=
  if !scaledGE a s (2 ^ 52 * b) then s + 1
  else if scaledGE a s (2 ^ 53 * b) then s - 1
  else s

/-- The unique scale `s` with `2^52 * b ≤ a * 2^s < 2^53 * b` (for
`a, b > 0`): the floor-log2 estimate is off by at most one, which the
correction steps absorb. -/
def ratScale (a b : Nat) : Int :=
  adjustScale a b (adjustScale a b (52 + (natLog2 b : Int) - (natLog2 a : Int)))

/-- Round `num / den` (`den > 0`) to the nearest integer, ties to even. -/
def roundNearestEven (num den : Nat) : Nat :=
  let q := num / den
  let r := num % den
  if 2 * r < den then q
  else if den < 2 * r then q + 1
  else if q % 2 = 0 then q else q + 1

/-- The nearest binary64 value (round to nearest, ties to even) of the
exact quotient `a / b` for `a, b > 0`, as mantissa times `2 ^ exponent`
with the mantissa in `[2^52, 2^53)`; this is what CPython's true
division of two ints produces in the normal range. -/
def roundDiv (a b : Nat) : Nat × Int :=
  let s := ratScale a b
  let m := if 0 ≤ s then roundNearestEven (a * 2 ^ s.toNat) b
           else roundNearestEven a (b * 2 ^ (-s).toNat)
  if m = 2 ^ 53 then (2 ^ 52, -s + 1) else (m, -s)

/-- Round the integer `n` to 53 significant bits (round to nearest,
ties to even), as mantissa times `2 ^ shift`. -/
def roundTo53 (n : Nat) : Nat × Nat :=
  if n < 2 ^ 53 then (n, 0)
  else
    let k := natLog2 n + 1 - 53
    let m := roundNearestEven n (2 ^ k)
    if m = 2 ^ 53 then (2 ^ 52, k + 1) else (m, k)

/-- `int((total / rate) * 1000)` as CPython evaluates it: the true
division of the two ints yields the correctly rounded binary64 double of
the exact quotient, the multiplication by the exactly representable
`1000.0` rounds the integer product of the mantissa again to 53 bits,
and `int` truncates toward zero.  Overflow and subnormals, unreachable
at realistic sample counts, are not modelled. -/
def float64AudioEndMs (total rate : Nat) : Nat :=
  if total = 0 then 0
  else
    let md := roundDiv total rate
    let mk := roundTo53 (md.1 * 1000)
    let e2 := md.2 + (mk.2 : Int)
    if 0 ≤ e2 then mk.1 * 2 ^ e2.toNat else mk.1 / 2 ^ (-e2).toNat

/-- `RealtimeClient.send_conversation_item_truncate(total_samples_played)`:
if an assistant item id is known, emit `conversation.item.truncate`
carrying `int((total_samples_played / audio_sample_rate) * 1000)`,
computed in binary64 float arithmetic. -/
def sendConversationItemTruncate (s : ClientState)
    (total_samples_played : Nat) : List Effect :=
  match s.current_item_id with
  | some iid =>
      [Effect.sendMsg
        (OutMsg.itemTruncate iid (float64AudioEndMs total_samples_played audio_sample_rate))]
  | none => []

/-- `RealtimeClient.stop_assistant_playback`: stop the player, read the
rendered-sample counter, send the truncate message, clear the audio
queue, clear the `assistant_audio_playing` flag. -/
def stopAssistantPlayback (s : ClientState) : ClientState × List Effect :=
  let p := s.player.stop
  let total := p.get_total_played_samples
  let effs := sendConversationItemTruncate s total
  ({ s with player := p, audio_queue := [], assistant_audio_playing := false },
    effs)

/-- The `response_id` extraction of `on_message` (lines 78-82): top-level
`response_id` field, else `response.id`. -/
def extractRid : Event → Option String
  | Event.responseCreated rid => some rid
  | Event.responseDone rid _ => rid
  | Event.audioTranscriptDelta rid _ => rid
  | Event.audioDone rid => rid
  | Event.textDelta rid _ => rid
  | Event.textDone rid => rid
  | Event.audioTranscriptDone rid => rid
  | Event.audioDelta rid _ => rid
  | Event.contentPartDone rid _ _ => rid
  | Event.outputItemDone rid => rid
  | _ => none

/-- The per-event bodies of `on_message`, after the stale-response gate. -/
def handleEventBody (s : ClientState) (e : Event) : ClientState × List Effect :=
  match e with
  | Event.speechStarted =>
      if s.assistant_audio_playing then
        let r1 := sendResponseCancel s
        let r2 := stopAssistantPlayback r1.1
        (r2.1, r1.2 ++ r2.2)
      else (s, [])
  | Event.speechStopped =>
      (s, [Effect.sendMsg OutMsg.responseCreate])
  | Event.itemCreated role iid =>
      if role = "assistant" then ({ s with current_item_id := some iid }, [])
      else (s, [])
  | Event.responseCreated rid =>
      let r1 := if s.assistant_speaking then stopAssistantPlayback s else (s, [])
      let s1 := r1.1
      ({ s1 with current_response_id := some rid,
                 response_states := setState s1.response_states rid "active",
                 player := s1.player.reset }, r1.2)
  | Event.audioTranscriptDelta rid delta =>
      match rid with
      | some r =>
          if lookupState s.response_states r = some "active" then
            ({ s with audio_transcript_buffer := s.audio_transcript_buffer ++ delta },
              [Effect.transcriptAppend r delta])
          else (s, [])
      | none => (s, [])
  | Event.audioDone _ =>
      ({ s with assistant_speaking := false }, [])
  | Event.textDelta rid delta =>
      match rid with
      | some r =>
          if lookupState s.response_states r = some "active" then
            ({ s with text_buffer := s.text_buffer ++ delta },
              [Effect.textAppend r delta])
          else (s, [])
      | none => (s, [])
  | Event.textDone _ =>
      ({ s with text_buffer := "" }, [])
  | Event.audioTranscriptDone _ =>
      ({ s with audio_transcript_buffer := "" }, [])
  | Event.audioDelta rid samples =>
      match rid with
      | some r =>
          if lookupState s.response_states r = some "active" then
            match samples with
            | some d =>
                ({ s with audio_queue := s.audio_queue ++ [(r, d)],
                          assistant_speaking := true },
                  [Effect.enqueueAudio r d])
            | none => (s, [])
          else (s, [])
      | none => (s, [])
  | Event.contentPartDone rid partType text =>
      match rid with
      | some r =>
          if lookupState s.response_states r = some "active" then
            if partType = "text" then
              ({ s with text_buffer := s.text_buffer ++ text },
                [Effect.textAppend r text])
            else (s, [])
          else (s, [])
      | none => (s, [])
  | Event.outputItemDone rid =>
      match rid with
      | some r =>
          if lookupState s.response_states r = some "active" then
            let effs := if s.text_buffer = "" then []
                        else [Effect.flushText s.text_buffer]
            ({ s with text_buffer := "",
                      response_states := setState s.response_states r "completed" },
              effs)
          else (s, [])
      | none => (s, [])
  | Event.responseDone rid status =>
      match rid with
      | some r =>
          if (lookupState s.response_states r).isSome then
            ({ s with response_states := setState s.response_states r status }, [])
          else (s, [])
      | none => (s, [])
  | Event.unrecognized t =>
      if t ∈ s.unhandled_event_types then (s, [])
      else ({ s with unhandled_event_types := s.unhandled_event_types ++ [t] }, [])

/-- `RealtimeClient.on_message`: the stale-response gate (drop every
event whose extracted response id is recorded with a state other than
"active"; absent or unknown ids pass), then the per-event body. -/
def handleEvent (s : ClientState) (e : Event) : ClientState × List Effect :=
  match extractRid e with
  | some rid =>
      match lookupState s.response_states rid with
      | some st => if st = "active" then handleEventBody s e else (s, [])
      | none => handleEventBody s e
  | none => handleEventBody s e

/-- One iteration of `RealtimeClient._play_received_audio`: pop a chunk
from the audio queue and write it to the player only when it is tagged
with the current response id and that response is still active; on an
empty queue, clear `assistant_audio_playing` if the player is idle. -/
def playStep (s : ClientState) : ClientState × List Effect :=
  match s.audio_queue with
  | [] =>
      (if !s.player.is_playing then { s with assistant_audio_playing := false }
       else s, [])
  | (rid, d) :: rest =>
      let s1 := { s with audio_queue := rest }
      if s.current_response_id = some rid then
        if lookupState s.response_states rid = some "active" then
          ({ s1 with player := s1.player.write d, assistant_audio_playing := true },
            [Effect.playerWrite rid d])
        else (s1, [])
      else (s1, [])

/-- A step of the whole system: either the receive loop handles one
inbound event, or the playback delivery loop runs one iteration. -/
inductive Action where
  | inbound (e : Event) : Action
  | play : Action
  deriving Repr, DecidableEq

/-- System step. -/
def step (s : ClientState) : Action → ClientState × List Effect
  | Action.inbound e => handleEvent s e
  | Action.play => playStep s

/-- The response id a fragment-delivery effect is tagged with (player
writes, queue insertions, and text/transcript accumulator appends);
`none` for control messages and display flushes. -/
def Effect.fragmentRid : Effect → Option String
  | Effect.playerWrite rid _ => some rid
  | Effect.enqueueAudio rid _ => some rid
  | Effect.textAppend rid _ => some rid
  | Effect.transcriptAppend rid _ => some rid
  | _ => none

end RealtimeSpec

namespace RealtimeSpec

/-! ## Helper lemmas about the response-state map -/

theorem lookupState_setState_self (m : List (String × String)) (k v : String) :
    lookupState (setState m k v) k = some v := by
  induction m with
  | nil => simp [setState, lookupState]
  | cons hd tl ih =>
      obtain ⟨a, b⟩ := hd
      by_cases hak : a = k
      · simp [setState, hak, lookupState]
      · simp [setState, hak, lookupState, Ne.symm hak, ih]

theorem lookupState_setState_ne (m : List (String × String)) (k v r : String)
    (h : r ≠ k) : lookupState (setState m k v) r = lookupState m r := by
  induction m with
  | nil => simp [setState, lookupState, Ne.symm h]
  | cons hd tl ih =>
      obtain ⟨a, b⟩ := hd
      by_cases hak : a = k
      · subst hak
        simp [setState, lookupState, h, Ne.symm h]
      · simp [setState, hak, lookupState, ih]

end RealtimeSpec

namespace RealtimeSpec

/-! ## C10: reset idempotence -/

/-- C10: calling `reset()` on the Playback Buffer twice in a row yields
the same state as calling it once — an empty pending buffer and a
rendered-sample counter equal to zero. -/
theorem C10_reset_idempotent (p : AudioPlayer) :
    p.reset.reset = p.reset ∧
    p.reset.buffer = [] ∧
    p.reset.total_samples_played = 0 :=
  ⟨rfl, rfl, rfl⟩

/-! ## C5: rendered-sample counter -/

/-- C5 counterexample: the claim states that `stop()` (as well as
`reset()`) zeroes the rendered-sample counter.  On a player with 5
samples already rendered, `AudioPlayer.stop` leaves the counter at 5,
not 0: `stop` clears the buffer but deliberately preserves the counter
(it must survive until the Interruption Coordinator reads it). -/
theorem C5_counterexample :
    (AudioPlayer.stop
      { buffer := [1, 2], total_samples_played := 5,
        playback_finished := false, streamActive := true
        }).total_samples_played = 5 ∧ (5 : Nat) ≠ 0 :=
  ⟨rfl, by decide⟩

/-- C5 (amended): the rendered-sample counter is monotonically
non-decreasing under the render callback, and unchanged by `write` and
by `stop`; it is zeroed exactly by `reset`, the only operation that
zeroes it. -/
theorem C5_counter_monotone_reset_zeroes (p : AudioPlayer) (frames : Nat)
    (d : List Int) :
    p.total_samples_played ≤ (p.callback frames).total_samples_played ∧
    (p.write d).total_samples_played = p.total_samples_played ∧
    p.stop.total_samples_played = p.total_samples_played ∧
    p.reset.total_samples_played = 0 :=
  ⟨Nat.le_add_right _ _, rfl, rfl, rfl⟩

/-! ## C3: truncation duration -/

/-- Concrete state for the C3 counterexample: 24024 samples rendered at
24000 Hz — one second and one millisecond of audio. -/
def c3CounterState : ClientState :=
  { ClientState.init with
      current_item_id := some "item_1",
      player := { buffer := [], total_samples_played := 24024,
                  playback_finished := false, streamActive := true } }

/-- C3 counterexample: the claim states the truncate message carries
`floor(rendered_samples / sample_rate * 1000)` at every interruption.
With 24024 samples rendered the exact floor is 1001, but the code's
binary64 computation `int((24024 / 24000) * 1000)` evaluates to 1000:
`24024 / 24000` rounds to a double just below `1.001`, and the final
truncation loses a millisecond. -/
theorem C3_counterexample :
    (stopAssistantPlayback c3CounterState).2 =
      [Effect.sendMsg (OutMsg.itemTruncate "item_1" 1000)] ∧
    (24024 * 1000 / 24000 : Nat) = 1001 ∧ (1000 : Nat) ≠ 1001 :=
  ⟨rfl, by norm_num, by decide⟩

/-- C3 (amended): the `audio_end_ms` carried by the truncate message
that the Interruption Coordinator (`stop_assistant_playback`) emits
equals the binary64 evaluation of
`int((rendered_samples / sample_rate) * 1000)` of the rendered-sample
counter at the instant of interruption — which can fall one millisecond
below the exact floor — and is independent of the samples still buffered
in the player and of the chunks still waiting in the audio queue. -/
theorem C3_truncate_duration (s : ClientState) (iid : String)
    (h : s.current_item_id = some iid) :
    (stopAssistantPlayback s).2 =
      [Effect.sendMsg (OutMsg.itemTruncate iid
        (float64AudioEndMs s.player.total_samples_played audio_sample_rate))] ∧
    (∀ buf : List Int,
      (stopAssistantPlayback
        { s with player := { s.player with buffer := buf } }).2 =
      (stopAssistantPlayback s).2) ∧
    (∀ q : List (String × List Int),
      (stopAssistantPlayback { s with audio_queue := q }).2 =
      (stopAssistantPlayback s).2) := by
  refine ⟨?_, ?_, ?_⟩
  · simp [stopAssistantPlayback, sendConversationItemTruncate, h,
      AudioPlayer.stop, AudioPlayer.get_total_played_samples]
  · intro buf
    simp [stopAssistantPlayback, sendConversationItemTruncate, h,
      AudioPlayer.stop, AudioPlayer.get_total_played_samples]
  · intro q
    simp [stopAssistantPlayback, sendConversationItemTruncate, h,
      AudioPlayer.stop, AudioPlayer.get_total_played_samples]

/-- Concrete state for the C3 witness: 12000 samples rendered at
24000 Hz, with unrendered samples still in the player buffer. -/
def c3State : ClientState :=
  { ClientState.init with
      current_item_id := some "item_1",
      player := { buffer := [3, 4, 5], total_samples_played := 12000,
                  playback_finished := false, streamActive := true } }

/-- C3 witness: with 12000 samples rendered at 24000 Hz the truncate
message carries `audio_end_ms = 500` (here the binary64 computation is
exact: `12000 / 24000` is the representable `0.5`). -/
theorem C3_truncate_duration_witness :
    c3State.current_item_id = some "item_1" ∧
    (stopAssistantPlayback c3State).2 =
      [Effect.sendMsg (OutMsg.itemTruncate "item_1" 500)] :=
  ⟨rfl, by
    have h := (C3_truncate_duration c3State "item_1" rfl).1
    rw [h]; rfl⟩

end RealtimeSpec

namespace RealtimeSpec

/-! ## C9: playback delivery gate -/

/-- C9: when the playback delivery loop dequeues a chunk, it writes the
chunk to the player exactly when the chunk's response id equals the
client's current response id and that response's recorded state is
"active"; any other chunk — whatever its recorded state — is discarded
without modifying the player. -/
theorem C9_play_gate (s : ClientState) (rid : String) (d : List Int)
    (rest : List (String × List Int)) (h : s.audio_queue = (rid, d) :: rest) :
    (playStep s).1.audio_queue = rest ∧
    (if s.current_response_id = some rid ∧
        lookupState s.response_states rid = some "active"
     then (playStep s).1.player = s.player.write d ∧
          (playStep s).2 = [Effect.playerWrite rid d]
     else (playStep s).1.player = s.player ∧ (playStep s).2 = []) := by
  by_cases h1 : s.current_response_id = some rid
  · by_cases h2 : lookupState s.response_states rid = some "active"
    · rw [if_pos ⟨h1, h2⟩]
      simp [playStep, h, h1, h2]
    · rw [if_neg (by simp [h2])]
      simp [playStep, h, h1, h2]
  · rw [if_neg (by simp [h1])]
    simp [playStep, h, h1]

/-- Concrete state for the C9 witness: responses "R1" and "R2" are both
recorded "active", the current response is "R2", and the queue head is
tagged "R1". -/
def c9State : ClientState :=
  { ClientState.init with
      current_response_id := some "R2",
      response_states := [("R1", "active"), ("R2", "active")],
      audio_queue := [("R1", [1, 2, 3])] }

/-- C9 witness: the dequeued chunk tagged "R1" — whose recorded state is
still "active" — is discarded without modifying the player because the
current response is "R2". -/
theorem C9_play_gate_witness :
    (playStep c9State).1.audio_queue = [] ∧
    (playStep c9State).1.player = c9State.player ∧ (playStep c9State).2 = [] := by
  have h := C9_play_gate c9State "R1" [1, 2, 3] [] rfl
  rw [if_neg (by decide)] at h
  exact ⟨h.1, h.2.1, h.2.2⟩

/-! ## C4: order of truncate and cancel -/

/-- Concrete pre-interruption state used for the C4 counterexample. -/
def c4State : ClientState :=
  { ClientState.init with
      current_response_id := some "R1",
      response_states := [("R1", "active")],
      current_item_id := some "item_1",
      assistant_audio_playing := true }

/-- C4 counterexample: the claim states the truncate message is emitted
before the cancel message.  On the user-speech-started barge-in path the
code calls `send_response_cancel()` and only then
`stop_assistant_playback()` (which sends the truncate): the emitted
message sequence puts `response.cancel` first and
`conversation.item.truncate` second. -/
theorem C4_counterexample :
    (handleEvent c4State Event.speechStarted).2 =
      [Effect.sendMsg (OutMsg.responseCancel "R1"),
       Effect.sendMsg (OutMsg.itemTruncate "item_1" 0)] := rfl

/-- C4 (amended): on every user-speech-started barge-in with a current
response id and a known assistant item id, the cancel message is emitted
strictly before the truncate message (and the truncate carries the
rendered-sample duration). -/
theorem C4_cancel_before_truncate (s : ClientState) (rid iid : String)
    (h1 : s.assistant_audio_playing = true)
    (h2 : s.current_response_id = some rid)
    (h3 : s.current_item_id = some iid) :
    (handleEvent s Event.speechStarted).2 =
      [Effect.sendMsg (OutMsg.responseCancel rid),
       Effect.sendMsg (OutMsg.itemTruncate iid
         (float64AudioEndMs s.player.total_samples_played audio_sample_rate))] := by
  simp [handleEvent, extractRid, handleEventBody, h1, h2, h3,
    sendResponseCancel, stopAssistantPlayback, sendConversationItemTruncate,
    AudioPlayer.stop, AudioPlayer.get_total_played_samples]

/-- Concrete state for the C4 amended witness: 24000 samples rendered,
so the truncate carries 1000 ms, after the cancel. -/
def c4StateW : ClientState :=
  { ClientState.init with
      current_response_id := some "R7",
      response_states := [("R7", "active")],
      current_item_id := some "item_7",
      assistant_audio_playing := true,
      player := { buffer := [], total_samples_played := 24000,
                  playback_finished := false, streamActive := true } }

/-- C4 amended witness. -/
theorem C4_cancel_before_truncate_witness :
    (handleEvent c4StateW Event.speechStarted).2 =
      [Effect.sendMsg (OutMsg.responseCancel "R7"),
       Effect.sendMsg (OutMsg.itemTruncate "item_7" 1000)] := by
  have h := C4_cancel_before_truncate c4StateW "R7" "item_7" rfl rfl rfl
  rw [h]; rfl

end RealtimeSpec

namespace RealtimeSpec

/-! ## C8: speech started with no active response -/

/-- Fold a list of actions from a state, discarding effects. -/
def runActions (s : ClientState) : List Action → ClientState
  | [] => s
  | a :: rest => runActions (step s a).1 rest

/-- A state reached from `ClientState.init`: an assistant item and
response "R1" are created, one audio chunk is delivered and written to
the player (setting the `assistant_audio_playing` flag), and then the
server reports "R1" completed.  At this point no response is in state
"active", yet the flag is still set. -/
def c8State : ClientState :=
  runActions ClientState.init
    [Action.inbound (Event.itemCreated "assistant" "item_1"),
     Action.inbound (Event.responseCreated "R1"),
     Action.inbound (Event.audioDelta (some "R1") (some [1, 2, 3, 4])),
     Action.play,
     Action.inbound (Event.responseDone (some "R1") "completed")]

/-- C8 counterexample: the claim states that a user-speech-started event
arriving while no response is active sends no cancel and no truncate.
In the reachable state `c8State` the only recorded response is
"completed" (none is active), but the `assistant_audio_playing` flag —
which is what the code actually guards on — is still set, so the
handler emits both a `response.cancel` and a
`conversation.item.truncate`. -/
theorem C8_counterexample :
    c8State.response_states = [("R1", "completed")] ∧
    c8State.assistant_audio_playing = true ∧
    (handleEvent c8State Event.speechStarted).2 =
      [Effect.sendMsg (OutMsg.responseCancel "R1"),
       Effect.sendMsg (OutMsg.itemTruncate "item_1" 0)] :=
  ⟨rfl, rfl, rfl⟩

/-- C8 (amended): if a user-speech-started event arrives while the
`assistant_audio_playing` flag is clear — the guard the code actually
tests — the handler is a no-op: no cancel, no truncate, state
unchanged. -/
theorem C8_no_op_when_not_playing (s : ClientState)
    (h : s.assistant_audio_playing = false) :
    handleEvent s Event.speechStarted = (s, []) := by
  simp [handleEvent, extractRid, handleEventBody, h]

/-- C8 amended witness: in the initial state (no audio playing), a
speech-started event changes nothing and sends nothing. -/
theorem C8_no_op_when_not_playing_witness :
    ClientState.init.assistant_audio_playing = false ∧
    handleEvent ClientState.init Event.speechStarted = (ClientState.init, []) :=
  ⟨rfl, C8_no_op_when_not_playing ClientState.init rfl⟩

end RealtimeSpec

namespace RealtimeSpec

/-! ## C2: new response while a prior one is active -/

/-- Client state after handling `response.created` for `rid`. -/
def afterResponseCreated (s : ClientState) (rid : String) : ClientState :=
  (handleEvent s (Event.responseCreated rid)).1

/-- Concrete state for the C2 counterexample: response "R1" is active,
current, and playing. -/
def c2State : ClientState :=
  { ClientState.init with
      current_response_id := some "R1",
      response_states := [("R1", "active")],
      current_item_id := some "item_1",
      assistant_speaking := true,
      assistant_audio_playing := true,
      audio_queue := [("R1", [7, 8])],
      player := { buffer := [5, 6], total_samples_played := 4800,
                  playback_finished := false, streamActive := true } }

/-- C2 counterexample: the claim states that when `response.created` for
"R2" arrives while "R1" is active and playing, R1's state becomes
"canceled" and every subsequent fragment tagged "R1" is dropped.  In the
code the `response.created` handler never cancels R1: afterwards R1 is
still recorded "active", and a subsequent text fragment tagged "R1" is
still appended to the text accumulator. -/
theorem C2_counterexample :
    lookupState (afterResponseCreated c2State "R2").response_states "R1" =
      some "active" ∧
    (handleEvent (afterResponseCreated c2State "R2")
        (Event.textDelta (some "R1") "x")).1.text_buffer = "x" :=
  ⟨rfl, rfl⟩

/-- C2 (amended): when `response.created` for a fresh response `r2`
arrives while `r1` is active, current, and the assistant is speaking,
the playback-stop path runs and then the new response is installed: the
current response id becomes `r2`, `r2` is recorded "active", `r1`
remains recorded "active" (it is not canceled), the Playback Buffer is
reset (pending samples and rendered-sample counter cleared), the audio
queue is cleared, and afterwards a dequeued audio chunk tagged `r1` is
discarded without touching the player (because the current response is
now `r2`) while a chunk tagged `r2` is written. -/
theorem C2_new_response_supersedes (s : ClientState) (r1 r2 : String)
    (d : List Int) (rest : List (String × List Int))
    (h1 : s.assistant_speaking = true)
    (h2 : s.current_response_id = some r1)
    (h3 : lookupState s.response_states r1 = some "active")
    (h4 : lookupState s.response_states r2 = none)
    (h5 : r1 ≠ r2) :
    (afterResponseCreated s r2).current_response_id = some r2 ∧
    lookupState (afterResponseCreated s r2).response_states r2 = some "active" ∧
    lookupState (afterResponseCreated s r2).response_states r1 = some "active" ∧
    (afterResponseCreated s r2).player.buffer = [] ∧
    (afterResponseCreated s r2).player.total_samples_played = 0 ∧
    (afterResponseCreated s r2).audio_queue = [] ∧
    (playStep { afterResponseCreated s r2 with
        audio_queue := (r1, d) :: rest }).1.player =
      (afterResponseCreated s r2).player ∧
    (playStep { afterResponseCreated s r2 with
        audio_queue := (r1, d) :: rest }).2 = [] ∧
    (playStep { afterResponseCreated s r2 with
        audio_queue := (r2, d) :: rest }).1.player =
      (afterResponseCreated s r2).player.write d := by
  have hgate : afterResponseCreated s r2 =
      { (stopAssistantPlayback s).1 with
          current_response_id := some r2,
          response_states :=
            setState (stopAssistantPlayback s).1.response_states r2 "active",
          player := (stopAssistantPlayback s).1.player.reset } := by
    simp [afterResponseCreated, handleEvent, extractRid, h4, handleEventBody, h1]
  have hstates : (stopAssistantPlayback s).1.response_states =
      s.response_states := by
    simp [stopAssistantPlayback]
  refine ⟨?_, ?_, ?_, ?_, ?_, ?_, ?_, ?_, ?_⟩
  · rw [hgate]
  · rw [hgate]; simp [hstates, lookupState_setState_self]
  · rw [hgate]; simp [hstates, lookupState_setState_ne _ _ _ _ h5, h3]
  · rw [hgate]; rfl
  · rw [hgate]; rfl
  · rw [hgate]; simp [stopAssistantPlayback]
  · rw [hgate]
    simp [playStep, Ne.symm h5]
  · rw [hgate]
    simp [playStep, Ne.symm h5]
  · rw [hgate]
    simp [playStep, hstates, lookupState_setState_self]

/-- Concrete state for the C2 amended witness. -/
def c2StateW : ClientState :=
  { ClientState.init with
      current_response_id := some "RA",
      response_states := [("RA", "active")],
      current_item_id := some "item_9",
      assistant_speaking := true,
      assistant_audio_playing := true,
      audio_queue := [("RA", [7, 8])],
      player := { buffer := [5, 6], total_samples_played := 4800,
                  playback_finished := false, streamActive := true } }

/-- C2 amended witness: after `response.created` for "RB", the current
response is "RB", "RB" is active, "RA" is still recorded "active", the
player is reset, and a dequeued chunk tagged "RA" is dropped. -/
theorem C2_new_response_supersedes_witness :
    (afterResponseCreated c2StateW "RB").current_response_id = some "RB" ∧
    lookupState (afterResponseCreated c2StateW "RB").response_states "RA" =
      some "active" ∧
    (afterResponseCreated c2StateW "RB").player.total_samples_played = 0 ∧
    (playStep { afterResponseCreated c2StateW "RB" with
        audio_queue := [("RA", [9])] }).2 = [] := by
  have h := C2_new_response_supersedes c2StateW "RA" "RB" [9] [] rfl rfl rfl rfl
    (by decide)
  exact ⟨h.1, h.2.2.1, h.2.2.2.2.1, h.2.2.2.2.2.2.2.1⟩

end RealtimeSpec

namespace RealtimeSpec

/-! ## C6: terminal events -/

/-- Concrete state for the C6 counterexample: response "R1" is active
and the text accumulator is nonempty; "R2" is unknown. -/
def c6State : ClientState :=
  { ClientState.init with
      text_buffer := "hello",
      response_states := [("R1", "active")] }

/-- C6 counterexample: the claim states that every terminal event sets
`response_states[resp_id]` to the carried status and flushes buffered
text.  On `response.done` for the active "R1" the code sets the status
but does not flush the text buffer (it stays "hello" and no flush effect
is emitted); and on `response.done` for the unknown "R2" the map entry
is not created at all. -/
theorem C6_counterexample :
    (handleEvent c6State (Event.responseDone (some "R1") "completed")).1.text_buffer
      = "hello" ∧
    (handleEvent c6State (Event.responseDone (some "R1") "completed")).2 = [] ∧
    lookupState (handleEvent c6State
        (Event.responseDone (some "R2") "failed")).1.response_states "R2" = none :=
  ⟨rfl, rfl, rfl⟩

/-- C6 (amended): for a response recorded "active",
`response.output_item.done` sets its state to "completed", empties the
text accumulator, and flushes the buffered text for display when it is
nonempty; `response.done` sets its state to the carried status but
flushes nothing and leaves the text accumulator unchanged.  Terminal
events for ids not in the map leave the map unchanged. -/
theorem C6_terminal_events (s : ClientState) (rid status : String)
    (h : lookupState s.response_states rid = some "active") :
    (lookupState (handleEvent s
        (Event.outputItemDone (some rid))).1.response_states rid =
        some "completed" ∧
     (handleEvent s (Event.outputItemDone (some rid))).1.text_buffer = "" ∧
     (handleEvent s (Event.outputItemDone (some rid))).2 =
       (if s.text_buffer = "" then [] else [Effect.flushText s.text_buffer])) ∧
    (lookupState (handleEvent s
        (Event.responseDone (some rid) status)).1.response_states rid =
        some status ∧
     (handleEvent s (Event.responseDone (some rid) status)).1.text_buffer =
       s.text_buffer ∧
     (handleEvent s (Event.responseDone (some rid) status)).2 = []) := by
  refine ⟨⟨?_, ?_, ?_⟩, ⟨?_, ?_, ?_⟩⟩ <;>
    simp [handleEvent, extractRid, handleEventBody, h,
      lookupState_setState_self]

/-- C6 amended witness: with "R1" active and buffered text "hi",
`response.output_item.done` completes "R1" and flushes "hi", while
`response.done` with status "failed" records "failed" and flushes
nothing. -/
theorem C6_terminal_events_witness :
    lookupState (handleEvent
        { ClientState.init with
            text_buffer := "hi", response_states := [("R1", "active")] }
        (Event.outputItemDone (some "R1"))).1.response_states "R1" =
      some "completed" ∧
    (handleEvent
        { ClientState.init with
            text_buffer := "hi", response_states := [("R1", "active")] }
        (Event.outputItemDone (some "R1"))).2 = [Effect.flushText "hi"] ∧
    lookupState (handleEvent
        { ClientState.init with
            text_buffer := "hi", response_states := [("R1", "active")] }
        (Event.responseDone (some "R1") "failed")).1.response_states "R1" =
      some "failed" := by
  have h := C6_terminal_events
    { ClientState.init with
        text_buffer := "hi", response_states := [("R1", "active")] }
    "R1" "failed" rfl
  refine ⟨h.1.1, ?_, h.2.1⟩
  rw [h.1.2.2]
  rfl

/-! ## C7: events with unknown response ids -/

/-- Concrete state for the C7 counterexample. -/
def c7State : ClientState :=
  { ClientState.init with text_buffer := "abc" }

/-- C7 counterexample: the claim states that every inbound event
referencing a response id absent from the state map causes no state
mutation.  "RX" is unknown in `c7State`, yet `response.text.done`
tagged "RX" clears the text accumulator (from "abc" to ""), and
`response.created` for the unknown "RX" installs a new map entry — both
are state mutations. -/
theorem C7_counterexample :
    lookupState c7State.response_states "RX" = none ∧
    c7State.text_buffer = "abc" ∧
    (handleEvent c7State (Event.textDone (some "RX"))).1.text_buffer = "" ∧
    lookupState (handleEvent c7State
        (Event.responseCreated "RX")).1.response_states "RX" = some "active" :=
  ⟨rfl, rfl, rfl, rfl⟩

/-- C7 (amended): every inbound fragment-delivery event — audio delta,
text delta, audio-transcript delta, content-part done, output-item done
— referencing a response id not present in the state map is discarded
with no state mutation, no outbound message, and no fragment delivery;
lifecycle events (such as `response.created` or `response.text.done`)
are not so gated. -/
theorem C7_unknown_fragment_dropped (s : ClientState) (rid : String)
    (delta text ptype : String) (samples : Option (List Int))
    (h : lookupState s.response_states rid = none) :
    handleEvent s (Event.audioDelta (some rid) samples) = (s, []) ∧
    handleEvent s (Event.textDelta (some rid) delta) = (s, []) ∧
    handleEvent s (Event.audioTranscriptDelta (some rid) delta) = (s, []) ∧
    handleEvent s (Event.contentPartDone (some rid) ptype text) = (s, []) ∧
    handleEvent s (Event.outputItemDone (some rid)) = (s, []) := by
  refine ⟨?_, ?_, ?_, ?_, ?_⟩ <;>
    simp [handleEvent, extractRid, handleEventBody, h]

/-- C7 amended witness: in the initial state (empty map) every
fragment-delivery event tagged "RX" is a no-op. -/
theorem C7_unknown_fragment_dropped_witness :
    lookupState ClientState.init.response_states "RX" = none ∧
    handleEvent ClientState.init
      (Event.audioDelta (some "RX") (some [1, 2])) = (ClientState.init, []) ∧
    handleEvent ClientState.init
      (Event.textDelta (some "RX") "d") = (ClientState.init, []) := by
  have h := C7_unknown_fragment_dropped ClientState.init "RX" "d" "t" "text"
    (some [1, 2]) rfl
  exact ⟨rfl, h.1, h.2.1⟩

end RealtimeSpec

namespace RealtimeSpec

/-! ## C1: no stale fragment is ever delivered -/

theorem sendResponseCancel_fragmentRid (s : ClientState) (eff : Effect)
    (h : eff ∈ (sendResponseCancel s).2) : eff.fragmentRid = none := by
  rcases hc : s.current_response_id with _ | r
  · simp [sendResponseCancel, hc] at h
  · simp [sendResponseCancel, hc] at h
    subst h
    rfl

theorem sendConversationItemTruncate_fragmentRid (s : ClientState) (n : Nat)
    (eff : Effect) (h : eff ∈ sendConversationItemTruncate s n) :
    eff.fragmentRid = none := by
  rcases hc : s.current_item_id with _ | i
  · simp [sendConversationItemTruncate, hc] at h
  · simp [sendConversationItemTruncate, hc] at h
    subst h
    rfl

theorem stopAssistantPlayback_fragmentRid (s : ClientState) (eff : Effect)
    (h : eff ∈ (stopAssistantPlayback s).2) : eff.fragmentRid = none := by
  apply sendConversationItemTruncate_fragmentRid s
    (s.player.stop.get_total_played_samples) eff
  simpa [stopAssistantPlayback] using h

/-- Every fragment-delivery effect emitted by a handler body is tagged
with a response id whose recorded state, in the state the handler ran
in, is exactly "active". -/
theorem fragment_requires_active_body (s : ClientState) (e : Event)
    (eff : Effect) (rid : String) (hmem : eff ∈ (handleEventBody s e).2)
    (htag : eff.fragmentRid = some rid) :
    lookupState s.response_states rid = some "active" := by
  cases e with
  | speechStarted =>
      by_cases hp : s.assistant_audio_playing
      · simp only [handleEventBody, hp, if_true, List.mem_append] at hmem
        rcases hmem with h1 | h2
        · rw [sendResponseCancel_fragmentRid s eff h1] at htag
          exact absurd htag (by simp)
        · rw [stopAssistantPlayback_fragmentRid _ eff h2] at htag
          exact absurd htag (by simp)
      · simp [handleEventBody, hp] at hmem
  | speechStopped =>
      simp [handleEventBody] at hmem
      subst hmem
      simp [Effect.fragmentRid] at htag
  | itemCreated role iid =>
      by_cases hr : role = "assistant" <;> simp [handleEventBody, hr] at hmem
  | responseCreated r =>
      by_cases hsp : s.assistant_speaking
      · simp only [handleEventBody, hsp, if_true] at hmem
        rw [stopAssistantPlayback_fragmentRid s eff (by simpa using hmem)] at htag
        exact absurd htag (by simp)
      · simp [handleEventBody, hsp] at hmem
  | audioTranscriptDelta r? delta =>
      rcases r? with _ | r
      · simp [handleEventBody] at hmem
      · by_cases hl : lookupState s.response_states r = some "active"
        · simp [handleEventBody, hl] at hmem
          subst hmem
          simp [Effect.fragmentRid] at htag
          exact htag ▸ hl
        · simp [handleEventBody, hl] at hmem
  | audioDone r? =>
      simp [handleEventBody] at hmem
  | textDelta r? delta =>
      rcases r? with _ | r
      · simp [handleEventBody] at hmem
      · by_cases hl : lookupState s.response_states r = some "active"
        · simp [handleEventBody, hl] at hmem
          subst hmem
          simp [Effect.fragmentRid] at htag
          exact htag ▸ hl
        · simp [handleEventBody, hl] at hmem
  | textDone r? =>
      simp [handleEventBody] at hmem
  | audioTranscriptDone r? =>
      simp [handleEventBody] at hmem
  | audioDelta r? samples =>
      rcases r? with _ | r
      · simp [handleEventBody] at hmem
      · by_cases hl : lookupState s.response_states r = some "active"
        · rcases samples with _ | d
          · simp [handleEventBody, hl] at hmem
          · simp [handleEventBody, hl] at hmem
            subst hmem
            simp [Effect.fragmentRid] at htag
            exact htag ▸ hl
        · simp [handleEventBody, hl] at hmem
  | contentPartDone r? ptype text =>
      rcases r? with _ | r
      · simp [handleEventBody] at hmem
      · by_cases hl : lookupState s.response_states r = some "active"
        · by_cases hpt : ptype = "text"
          · simp [handleEventBody, hl, hpt] at hmem
            subst hmem
            simp [Effect.fragmentRid] at htag
            exact htag ▸ hl
          · simp [handleEventBody, hl, hpt] at hmem
        · simp [handleEventBody, hl] at hmem
  | outputItemDone r? =>
      rcases r? with _ | r
      · simp [handleEventBody] at hmem
      · by_cases hl : lookupState s.response_states r = some "active"
        · by_cases hb : s.text_buffer = ""
          · simp [handleEventBody, hl, hb] at hmem
          · simp [handleEventBody, hl, hb] at hmem
            subst hmem
            simp [Effect.fragmentRid] at htag
        · simp [handleEventBody, hl] at hmem
  | responseDone r? status =>
      rcases r? with _ | r
      · simp [handleEventBody] at hmem
      · by_cases hl : (lookupState s.response_states r).isSome <;>
          simp [handleEventBody, hl] at hmem
  | unrecognized t =>
      by_cases ht : t ∈ s.unhandled_event_types <;>
        simp [handleEventBody, ht] at hmem

/-- Every fragment-delivery effect emitted by a system step is tagged
with a response id whose recorded state, at the step's pre-state, is
exactly "active". -/
theorem fragment_requires_active (s : ClientState) (a : Action) (eff : Effect)
    (rid : String) (hmem : eff ∈ (step s a).2)
    (htag : eff.fragmentRid = some rid) :
    lookupState s.response_states rid = some "active" := by
  cases a with
  | inbound e =>
      rcases hx : extractRid e with _ | r0
      · simp only [step, handleEvent, hx] at hmem
        exact fragment_requires_active_body s e eff rid hmem htag
      · rcases hl : lookupState s.response_states r0 with _ | st
        · simp only [step, handleEvent, hx, hl] at hmem
          exact fragment_requires_active_body s e eff rid hmem htag
        · by_cases hst : st = "active"
          · simp only [step, handleEvent, hx, hl, hst, if_true] at hmem
            exact fragment_requires_active_body s e eff rid hmem htag
          · simp [step, handleEvent, hx, hl, hst] at hmem
  | play =>
      rcases hq : s.audio_queue with _ | ⟨⟨r, d⟩, rest⟩
      · simp [step, playStep, hq] at hmem
      · by_cases h1 : s.current_response_id = some r
        · by_cases h2 : lookupState s.response_states r = some "active"
          · simp [step, playStep, hq, h1, h2] at hmem
            subst hmem
            simp [Effect.fragmentRid] at htag
            exact htag ▸ h2
          · simp [step, playStep, hq, h1, h2] at hmem
        · simp [step, playStep, hq, h1] at hmem

/-- C1: on every sequence of inbound events and playback-loop steps, no
audio fragment and no text fragment tagged with a response id whose
recorded state is "canceled" or "completed" is ever delivered to the
Playback Buffer (queue insertion or player write) or appended to a text
accumulator: at the instant any fragment-delivery effect is produced,
the tagged response's recorded state is "active". -/
theorem C1_no_stale_fragment_delivered (s : ClientState) (a : Action)
    (eff : Effect) (rid : String) (hmem : eff ∈ (step s a).2)
    (htag : eff.fragmentRid = some rid) :
    lookupState s.response_states rid ≠ some "canceled" ∧
    lookupState s.response_states rid ≠ some "completed" := by
  have h := fragment_requires_active s a eff rid hmem htag
  rw [h]
  exact ⟨by simp, by simp⟩

/-- Concrete state for the C1 witness. -/
def c1State : ClientState :=
  { ClientState.init with
      current_response_id := some "R1",
      response_states := [("R1", "active")] }

/-- C1 witness: a text delta tagged with the active "R1" is appended,
and indeed "R1" is recorded neither "canceled" nor "completed". -/
theorem C1_no_stale_fragment_delivered_witness :
    Effect.textAppend "R1" "x" ∈
      (step c1State (Action.inbound (Event.textDelta (some "R1") "x"))).2 ∧
    (lookupState c1State.response_states "R1" ≠ some "canceled" ∧
     lookupState c1State.response_states "R1" ≠ some "completed") :=
  ⟨by decide,
   C1_no_stale_fragment_delivered c1State
     (Action.inbound (Event.textDelta (some "R1") "x"))
     (Effect.textAppend "R1" "x") "R1" (by decide) rfl⟩

end RealtimeSpec
